import Mathlib

/-!
# Verification of the aquanova_suite event hooks

Shallow embedding of `src/aquanova_suite/customizations.py` and
`src/hooks.py`: Frappe document-event callbacks for a water-treatment
equipment workflow.  Documents are modelled as typed records, the
framework store (`frappe.db`) as an explicit state threaded through the
hook functions, and side effects (`insert`, `db.commit`, `msgprint`,
`sendmail`, `log_error`) as operations on that state.  Dates follow the
`dateutil.relativedelta` semantics used by `frappe.utils.add_months` /
`add_years` (month arithmetic with end-of-month day clamping).
Python field truthiness (empty string / None is falsy) is modelled by
representing optional string fields as `String` with `""` for absent.
-/

/-- Calendar date, as handled by `frappe.utils.getdate`. -/
structure Date where
  year : Nat
  month : Nat
  day : Nat
deriving DecidableEq, Repr

/-- Gregorian leap-year test (`calendar.isleap`). -/
def isLeap (y : Nat) : Bool :=
  (y % 4 == 0 && y % 100 != 0) || (y % 400 == 0)

/-- Number of days in a month, used for the day clamping of
`relativedelta` month/year arithmetic. -/
def daysInMonth (y m : Nat) : Nat :=
  if m = 2 then (if isLeap y then 29 else 28)
  else if m = 4 ∨ m = 6 ∨ m = 9 ∨ m = 11 then 30
  else 31

/-- `frappe.utils.add_months`: advance by `n` months, clamping the day
to the length of the target month (relativedelta semantics). -/
def add_months (d : Date) (n : Nat) : Date :=
  let t := d.year * 12 + (d.month - 1) + n
  let y := t / 12
  let m := t % 12 + 1
  { year := y, month := m, day := min d.day (daysInMonth y m) }

/-- `frappe.utils.add_years`: advance by `n` years, clamping Feb 29 to
Feb 28 in non-leap target years (relativedelta semantics). -/
def add_years (d : Date) (n : Nat) : Date :=
  let y := d.year + n
  { year := y, month := d.month, day := min d.day (daysInMonth y d.month) }

/-- Two-digit zero padding for date formatting. -/
def pad2 (n : Nat) : String :=
  if n < 10 then "0" ++ toString n else toString n

/-- ISO `YYYY-MM-DD` rendering of a date, as Python's `str(date)` used
in the job-card id f-string. -/
def dateStr (d : Date) : String :=
  toString d.year ++ "-" ++ pad2 d.month ++ "-" ++ pad2 d.day

/-- `Wastewater System Design` document (fields read by the hooks;
`bom_reference` is `""` when absent, matching `doc.get`). -/
structure Design where
  name : String
  design_id : String
  design_date : String
  status : String
  bom_reference : String
deriving DecidableEq, Repr

/-- `Production Order` document as constructed by
`create_production_order` and updated by `create_installation_record`;
`installation_record` is `""` while unset (Python falsy). -/
structure ProductionOrder where
  name : String
  production_order_id : String
  wastewater_design : String
  status : String
  expected_start_date : Date
  production_qty : Nat
  bom_no : String
  installation_record : String
deriving DecidableEq, Repr

/-- `Installation Record` document. -/
structure InstallationRecord where
  name : String
  production_order : String
  system_design : String
  installation_date : Date
  installed_by : String
  status : String
deriving DecidableEq, Repr

/-- `Warranty Record` document. -/
structure WarrantyRecord where
  installation_record : String
  start_date : Date
  end_date : Date
  status : String
  remarks : String
deriving DecidableEq, Repr

/-- `Job Card` document. -/
structure JobCard where
  job_card_id : String
  installation_record : String
  scheduled_date : Date
  maintenance_type : String
  status : String
  emergency : Bool
  remarks : String
deriving DecidableEq, Repr

/-- `File` document created by `attach_design_pdf`. -/
structure FileDoc where
  file_name : String
  is_private : Nat
  attached_to_doctype : String
  attached_to_name : String
deriving DecidableEq, Repr

/-- `Maintenance Log` document; optional string fields are `""` when
absent, matching `doc.get(...)` defaults. -/
structure MaintenanceLog where
  maintenance_id : String
  installation_record : String
  equipment : String
  maintenance_date : Date
  performed_by : String
  activity : String
  remarks : String
deriving DecidableEq, Repr

/-- A framework document of any of the doctypes this module creates. -/
inductive Doc where
  | productionOrder (po : ProductionOrder)
  | installationRecord (ir : InstallationRecord)
  | warrantyRecord (w : WarrantyRecord)
  | jobCard (jc : JobCard)
  | file (f : FileDoc)
  | maintenanceLog (ml : MaintenanceLog)
deriving DecidableEq, Repr

/-- Observable side effects of a hook run, in order of occurrence. -/
inductive Event where
  | docCreated (d : Doc)
  | emailSent (recipients : List String) (subject : String)
  | msg (m : String)
deriving DecidableEq, Repr

/-- Framework state: `committed` documents are durable; `pending`
documents were inserted in the current transaction but not yet made
durable by `frappe.db.commit()`; `trace` records the side effects in
order; `errorLog` the titles passed to `frappe.log_error`. -/
structure DBState where
  committed : List Doc
  pending : List Doc
  trace : List Event
  errorLog : List String
deriving DecidableEq, Repr

/-- The empty store. -/
def emptyState : DBState := { committed := [], pending := [], trace := [], errorLog := [] }

/-- `doc.insert(...)`: the document joins the current transaction. -/
def insertDoc (d : Doc) (s : DBState) : DBState :=
  { s with pending := s.pending ++ [d], trace := s.trace ++ [Event.docCreated d] }

/-- `frappe.db.commit()`: the current transaction becomes durable. -/
def dbCommit (s : DBState) : DBState :=
  { s with committed := s.committed ++ s.pending, pending := [] }

/-- Transaction abort on a raised error: uncommitted work is discarded,
committed documents are untouched. -/
def rollback (s : DBState) : DBState :=
  { s with pending := [] }

/-- `frappe.msgprint`. -/
def msgprint (m : String) (s : DBState) : DBState :=
  { s with trace := s.trace ++ [Event.msg m] }

/-- `frappe.sendmail`. -/
def sendmail (recipients : List String) (subject : String) (s : DBState) : DBState :=
  { s with trace := s.trace ++ [Event.emailSent recipients subject] }

/-- `frappe.log_error` (only the fixed title matters to the claims). -/
def logError (title : String) (s : DBState) : DBState :=
  { s with errorLog := s.errorLog ++ [title] }

/-- The committed `Job Card` documents of a store. -/
def jobCards (s : DBState) : List JobCard :=
  s.committed.filterMap (fun d => match d with | Doc.jobCard jc => some jc | _ => none)

/-- The committed `Warranty Record` documents of a store. -/
def warranties (s : DBState) : List WarrantyRecord :=
  s.committed.filterMap (fun d => match d with | Doc.warrantyRecord w => some w | _ => none)

/-- The committed `Production Order` documents of a store. -/
def productionOrders (s : DBState) : List ProductionOrder :=
  s.committed.filterMap (fun d => match d with | Doc.productionOrder po => some po | _ => none)

/-- The committed `Installation Record` documents of a store. -/
def installations (s : DBState) : List InstallationRecord :=
  s.committed.filterMap (fun d => match d with | Doc.installationRecord ir => some ir | _ => none)

/-- The committed `Maintenance Log` documents of a store. -/
def maintenanceLogs (s : DBState) : List MaintenanceLog :=
  s.committed.filterMap (fun d => match d with | Doc.maintenanceLog ml => some ml | _ => none)

/-- The `Production Order` built by `create_production_order` (the
framework-assigned name is passed in as `poName`). -/
def mkProductionOrder (doc : Design) (today : Date) (poName : String) : ProductionOrder :=
  { name := poName
  , production_order_id := doc.design_id
  , wastewater_design := doc.name
  , status := "Draft"
  , expected_start_date := today
  , production_qty := 1
  , bom_no := doc.bom_reference
  , installation_record := "" }

/-- `create_production_order(doc, method)`: on an `Approved` design,
build a draft Production Order, insert it, commit, and announce it;
otherwise do nothing.  `today` stands for `nowdate()`. -/
def create_production_order (doc : Design) (today : Date) (poName : String) (s : DBState) : DBState :=
  if doc.status = "Approved" then
    msgprint ("Production Order " ++ poName ++ " created for Design " ++ doc.design_id)
      (dbCommit (insertDoc (Doc.productionOrder (mkProductionOrder doc today poName)) s))
  else s

/-- A system user: `name` is the `User` docname, `email` its `email`
field (`""` when missing/empty — Python falsy), `roles` its `Has Role`
rows. -/
structure UserRec where
  name : String
  email : String
  roles : List String
deriving DecidableEq, Repr

/-- The recipient list built by `send_design_approval_email`: users
holding the `Production Manager` role whose email is truthy (the
source's append-if-truthy loop, written as map-then-filter). -/
def pm_recipients (users : List UserRec) : List String :=
  ((users.filter (fun u => u.roles.contains "Production Manager")).map
    (fun u => u.email)).filter (fun e => e != "")

/-- `send_design_approval_email(doc, method)`: email every Production
Manager with a truthy email address; send nothing when the recipient
list is empty. -/
def send_design_approval_email (doc : Design) (users : List UserRec) (s : DBState) : DBState :=
  let recipients := pm_recipients users
  if recipients.isEmpty then s
  else sendmail recipients ("Design Approved: " ++ doc.design_id) s

/-- The `File` document built by `attach_design_pdf`. -/
def mkDesignPdf (doc : Design) : FileDoc :=
  { file_name := doc.design_id ++ ".pdf"
  , is_private := 1
  , attached_to_doctype := "Wastewater System Design"
  , attached_to_name := doc.name }

/-- `attach_design_pdf(doc, method)`: render the design template to a
PDF, insert it as a private `File` attached to the design, commit. -/
def attach_design_pdf (doc : Design) (s : DBState) : DBState :=
  dbCommit (insertDoc (Doc.file (mkDesignPdf doc)) s)

/-- The Job Card built by `create_job_card` (its id is the source's
`f"JC-{installation_doc.name}-{scheduled_date}"` f-string). -/
def mkJobCard (inst : InstallationRecord) (scheduled_date : Date) (maintenance_type : String) (emergency : Bool) : JobCard :=
  { job_card_id := "JC-" ++ inst.name ++ "-" ++ dateStr scheduled_date
  , installation_record := inst.name
  , scheduled_date := scheduled_date
  , maintenance_type := maintenance_type
  , status := "Open"
  , emergency := emergency
  , remarks := if emergency then "Emergency job card generated" else "Auto-generated job card" }

/-- `create_job_card(installation_doc, scheduled_date, maintenance_type, emergency)`:
insert an `Open` Job Card, commit, announce it. -/
def create_job_card (inst : InstallationRecord) (scheduled_date : Date) (maintenance_type : String) (emergency : Bool) (s : DBState) : DBState :=
  msgprint ("Job Card " ++ (mkJobCard inst scheduled_date maintenance_type emergency).job_card_id
      ++ " created for Installation " ++ inst.name ++ " on " ++ dateStr scheduled_date)
    (dbCommit (insertDoc (Doc.jobCard (mkJobCard inst scheduled_date maintenance_type emergency)) s))

/-- The maintenance intervals (in months) of `create_maintenance_schedule`. -/
def schedule_intervals : List Nat := [3, 6, 9, 12]

/-- `create_maintenance_schedule(installation_doc)`: one Scheduled
Maintenance Job Card per interval, dated `installation_date + months`
(`getdate` is the identity on an already-parsed date). -/
def create_maintenance_schedule (inst : InstallationRecord) (s : DBState) : DBState :=
  schedule_intervals.foldl
    (fun st months => create_job_card inst (add_months inst.installation_date months) "Scheduled Maintenance" false st)
    s

/-- The Installation Record built by `create_installation_record`
(framework-assigned name passed in as `instName`; `today` is
`nowdate()`, `user` is `frappe.session.user`). -/
def mkInstallation (doc : ProductionOrder) (today : Date) (user instName : String) : InstallationRecord :=
  { name := instName
  , production_order := doc.name
  , system_design := doc.wastewater_design
  , installation_date := today
  , installed_by := user
  , status := "Scheduled" }

/-- `create_installation_record(doc, method)`: on a `Completed`
Production Order with no linked installation record, insert an
Installation Record, link it back onto the order via `db_set`, commit,
announce it, and generate the maintenance schedule.  Returns the store
and the (possibly updated) triggering Production Order. -/
def create_installation_record (doc : ProductionOrder) (today : Date) (user instName : String) (s : DBState) : DBState × ProductionOrder :=
  if doc.status = "Completed" ∧ doc.installation_record = "" then
    let inst := mkInstallation doc today user instName
    let s1 := msgprint ("Installation Record " ++ instName ++ " created for Production Order " ++ doc.name)
      (dbCommit (insertDoc (Doc.installationRecord inst) s))
    (create_maintenance_schedule inst s1, { doc with installation_record := instName })
  else (s, doc)

/-- The Warranty Record built by `create_warranty_record`. -/
def mkWarranty (doc : InstallationRecord) : WarrantyRecord :=
  { installation_record := doc.name
  , start_date := doc.installation_date
  , end_date := add_years doc.installation_date 1
  , status := "Active"
  , remarks := "Warranty automatically generated upon installation." }

/-- `create_warranty_record(doc, method)`: on an `Installed`
Installation Record, insert an `Active` Warranty Record running one
year from the installation date, commit, announce it. -/
def create_warranty_record (doc : InstallationRecord) (s : DBState) : DBState :=
  if doc.status = "Installed" then
    msgprint ("Warranty Record created for Installation Record " ++ doc.name)
      (dbCommit (insertDoc (Doc.warrantyRecord (mkWarranty doc)) s))
  else s

/-- `handle_emergency_job_card(installation_record, details)`: create an
emergency Job Card dated today, then announce it. -/
def handle_emergency_job_card (inst : InstallationRecord) (today : Date) (s : DBState) : DBState :=
  msgprint "Emergency Job Card created."
    (create_job_card inst today "Emergency Maintenance" true s)

/-- The Maintenance Log built by `log_maintenance_activity`; absent
source fields are modelled as `""`, so the source's
`doc.get("maintenance_id") or ...` truthiness and `doc.get(key, default)`
fallbacks become tests against `""`.  `genHash` stands for
`frappe.generate_hash()`. -/
def mkMaintenanceLog (doc : MaintenanceLog) (today : Date) (user genHash : String) : MaintenanceLog :=
  { maintenance_id := if doc.maintenance_id != "" then doc.maintenance_id else "ML-" ++ genHash
  , installation_record := doc.installation_record
  , equipment := doc.equipment
  , maintenance_date := today
  , performed_by := user
  , activity := if doc.activity != "" then doc.activity else "Routine Check"
  , remarks := doc.remarks }

/-- `log_maintenance_activity(doc, method)`: build a new Maintenance
Log document from the submitted one, insert it, commit, announce it. -/
def log_maintenance_activity (doc : MaintenanceLog) (today : Date) (user genHash : String) (s : DBState) : DBState :=
  msgprint "Maintenance Log created."
    (dbCommit (insertDoc (Doc.maintenanceLog (mkMaintenanceLog doc today user genHash)) s))

/-- `Manufactured Component` document (only `component_id` is read). -/
structure ManufacturedComponent where
  component_id : String
deriving DecidableEq, Repr

/-- `update_inventory_on_component_production(doc, method)`: placeholder
that only prints a message. -/
def update_inventory_on_component_production (doc : ManufacturedComponent) (s : DBState) : DBState :=
  msgprint ("Inventory updated for Manufactured Component: " ++ doc.component_id) s

/-- `generate_maintenance_report()`, success path: render the report and
email it to the maintenance team. -/
def generate_maintenance_report (s : DBState) : DBState :=
  sendmail ["maintenance@example.com"] "Monthly Maintenance Report" s

/-- The `doc_events` hook table of `hooks.py`:
doctype -> event -> handler names, in registration order. -/
def doc_events : List (String × String × List String) :=
  [ ("Wastewater System Design", "on_submit",
      ["create_production_order", "send_design_approval_email", "attach_design_pdf"])
  , ("Production Order", "on_submit", ["create_installation_record"])
  , ("Installation Record", "on_submit", ["create_warranty_record"])
  , ("Maintenance Log", "on_submit", ["log_maintenance_activity"])
  , ("Manufactured Component", "on_submit", ["update_inventory_on_component_production"]) ]

/-- The `on_submit` pipeline for a `Wastewater System Design`, running
the three registered handlers in their `hooks.py` order. -/
def on_submit_design (doc : Design) (users : List UserRec) (today : Date) (poName : String) (s : DBState) : DBState :=
  attach_design_pdf doc
    (send_design_approval_email doc users
      (create_production_order doc today poName s))

/-- The shape of one function's `except` block: the fixed
`frappe.log_error` title, whether it then calls `frappe.throw`, and the
user-facing message it throws (`""` when it does not throw). -/
structure ExceptBlock where
  fname : String
  log_title : String
  throws : Bool
  user_message : String
deriving DecidableEq, Repr

/-- Every function of `customizations.py` with its `except` block, read
off the source in definition order. -/
def module_except_blocks : List ExceptBlock :=
  [ ⟨"create_production_order", "Production Order Creation Failed", true,
      "Failed to create Production Order. Please check the system logs."⟩
  , ⟨"send_design_approval_email", "Design Approval Email Failed", true,
      "Failed to send email notification. Please check the system logs."⟩
  , ⟨"attach_design_pdf", "PDF Generation Failed", true,
      "Failed to generate PDF. Please check the system logs."⟩
  , ⟨"create_installation_record", "Installation Record Creation Failed", true,
      "Failed to create Installation Record. Please check the system logs."⟩
  , ⟨"create_warranty_record", "Warranty Record Creation Failed", true,
      "Failed to create Warranty Record. Please check the system logs."⟩
  , ⟨"create_maintenance_schedule", "Maintenance Schedule Creation Failed", true,
      "Failed to create Maintenance Schedule. Please check the system logs."⟩
  , ⟨"create_job_card", "Job Card Creation Failed", true,
      "Failed to create Job Card. Please check the system logs."⟩
  , ⟨"handle_emergency_job_card", "Emergency Job Card Creation Failed", true,
      "Failed to create Emergency Job Card. Please check the system logs."⟩
  , ⟨"log_maintenance_activity", "Maintenance Log Creation Failed", true,
      "Failed to log maintenance activity. Please check the system logs."⟩
  , ⟨"update_inventory_on_component_production", "Inventory Update Failed", true,
      "Failed to update inventory. Please check the system logs."⟩
  , ⟨"generate_maintenance_report", "Maintenance Report Generation Failed", false, ""⟩ ]

/-- `create_installation_record` when the `k`-th Job Card insert (0-based,
`k < 4`) raises: the installation record was already inserted, linked and
committed, as were the first `k` job cards; the failing insert adds
nothing; the except blocks of `create_job_card`,
`create_maintenance_schedule` and `create_installation_record` each log
their fixed title and re-throw; the framework then aborts the open
transaction (rolls back uncommitted work only). -/
def create_installation_record_failJobCard (doc : ProductionOrder) (today : Date) (user instName : String) (k : Nat) (s : DBState) : DBState × ProductionOrder :=
  if doc.status = "Completed" ∧ doc.installation_record = "" then
    let inst := mkInstallation doc today user instName
    let s1 := msgprint ("Installation Record " ++ instName ++ " created for Production Order " ++ doc.name)
      (dbCommit (insertDoc (Doc.installationRecord inst) s))
    let s2 := (schedule_intervals.take k).foldl
      (fun st months => create_job_card inst (add_months inst.installation_date months) "Scheduled Maintenance" false st)
      s1
    let s3 := logError "Installation Record Creation Failed"
      (logError "Maintenance Schedule Creation Failed"
        (logError "Job Card Creation Failed" s2))
    (rollback s3, { doc with installation_record := instName })
  else (s, doc)

lemma create_job_card_committed (inst : InstallationRecord) (d : Date) (t : String) (e : Bool) (s : DBState) :
    (create_job_card inst d t e s).committed = s.committed ++ s.pending ++ [Doc.jobCard (mkJobCard inst d t e)] ∧
    (create_job_card inst d t e s).pending = [] ∧
    (create_job_card inst d t e s).errorLog = s.errorLog := by
  simp [create_job_card, msgprint, dbCommit, insertDoc]

lemma create_warranty_record_committed (doc : InstallationRecord) (s : DBState) (hi : doc.status = "Installed") :
    (create_warranty_record doc s).committed = s.committed ++ s.pending ++ [Doc.warrantyRecord (mkWarranty doc)] ∧
    (create_warranty_record doc s).pending = [] := by
  simp [create_warranty_record, hi, msgprint, dbCommit, insertDoc]

lemma warranties_append (l₁ l₂ : List Doc) :
    (l₁ ++ l₂).filterMap (fun d => match d with | Doc.warrantyRecord w => some w | _ => none)
      = l₁.filterMap (fun d => match d with | Doc.warrantyRecord w => some w | _ => none)
        ++ l₂.filterMap (fun d => match d with | Doc.warrantyRecord w => some w | _ => none) := by
  simp [List.filterMap_append]

/-- C2: submitting an `Installed` Installation Record creates exactly one
Warranty Record, whose `start_date` is the installation date, whose
`end_date` is the installation date plus one year, and whose status is
`Active`. -/
theorem c2_warranty_one_year (doc : InstallationRecord) (s : DBState)
    (hi : doc.status = "Installed") (hp : s.pending = []) :
    warranties (create_warranty_record doc s) = warranties s ++ [mkWarranty doc] ∧
    (mkWarranty doc).start_date = doc.installation_date ∧
    (mkWarranty doc).end_date = add_years doc.installation_date 1 ∧
    (mkWarranty doc).status = "Active" := by
  refine ⟨?_, rfl, rfl, rfl⟩
  have h := (create_warranty_record_committed doc s hi).1
  simp [warranties, h, hp, List.filterMap_append, mkWarranty]

/-- Concrete Installation Record used by the witnesses and
counterexamples below. -/
def ir0 : InstallationRecord :=
  { name := "IR-0001", production_order := "PO-0001", system_design := "WSD-0001"
  , installation_date := ⟨2026, 1, 10⟩, installed_by := "Administrator", status := "Installed" }

/-- Witness for C2 at a concrete `Installed` record. -/
theorem c2_warranty_one_year_witness :
    warranties (create_warranty_record ir0 emptyState) = warranties emptyState ++ [mkWarranty ir0] ∧
    (mkWarranty ir0).start_date = ir0.installation_date ∧
    (mkWarranty ir0).end_date = add_years ir0.installation_date 1 ∧
    (mkWarranty ir0).status = "Active" :=
  c2_warranty_one_year ir0 emptyState rfl rfl

/-- C8: the manual emergency path creates one Job Card dated today, of
type `Emergency Maintenance`, with the emergency flag set. -/
theorem c8_emergency_job_card (inst : InstallationRecord) (today : Date) (s : DBState)
    (hp : s.pending = []) :
    jobCards (handle_emergency_job_card inst today s)
      = jobCards s ++ [mkJobCard inst today "Emergency Maintenance" true] ∧
    (mkJobCard inst today "Emergency Maintenance" true).scheduled_date = today ∧
    (mkJobCard inst today "Emergency Maintenance" true).maintenance_type = "Emergency Maintenance" ∧
    (mkJobCard inst today "Emergency Maintenance" true).emergency = true := by
  refine ⟨?_, rfl, rfl, rfl⟩
  simp [handle_emergency_job_card, create_job_card, msgprint, dbCommit, insertDoc,
    jobCards, hp, List.filterMap_append]

/-- Witness for C8 at a concrete record and date. -/
theorem c8_emergency_job_card_witness :
    jobCards (handle_emergency_job_card ir0 ⟨2026, 3, 1⟩ emptyState)
      = jobCards emptyState ++ [mkJobCard ir0 ⟨2026, 3, 1⟩ "Emergency Maintenance" true] ∧
    (mkJobCard ir0 ⟨2026, 3, 1⟩ "Emergency Maintenance" true).scheduled_date = (⟨2026, 3, 1⟩ : Date) ∧
    (mkJobCard ir0 ⟨2026, 3, 1⟩ "Emergency Maintenance" true).maintenance_type = "Emergency Maintenance" ∧
    (mkJobCard ir0 ⟨2026, 3, 1⟩ "Emergency Maintenance" true).emergency = true :=
  c8_emergency_job_card ir0 ⟨2026, 3, 1⟩ emptyState rfl

/-- C10: recipients are always truthy emails, and when no Production
Manager has a non-empty email the recipient list is empty and the hook
leaves the state untouched — no email is sent and no error is raised
(the error log is part of the unchanged state). -/
theorem c10_no_recipients_no_email (doc : Design) (users : List UserRec) (s : DBState) :
    (∀ e ∈ pm_recipients users, e ≠ "") ∧
    ((∀ u ∈ users, u.roles.contains "Production Manager" = true → u.email = "") →
      pm_recipients users = [] ∧ send_design_approval_email doc users s = s) := by
  constructor
  · intro e he
    have := List.of_mem_filter he
    simpa using this
  · intro h
    have hrec : pm_recipients users = [] := by
      rw [pm_recipients, List.filter_eq_nil_iff]
      intro e he
      rcases List.mem_map.mp he with ⟨u, hu, rfl⟩
      have hu' := List.mem_filter.mp hu
      simp [h u hu'.1 hu'.2]
    refine ⟨hrec, ?_⟩
    simp [send_design_approval_email, hrec]

/-- Concrete user table: one Production Manager with an empty email, one
non-manager with an email. -/
def users0 : List UserRec :=
  [ ⟨"pm1@site", "", ["Production Manager"]⟩
  , ⟨"sales1@site", "sales1@example.com", ["Sales User"]⟩ ]

/-- Concrete approved design used by several witnesses. -/
def design1 : Design :=
  { name := "WSD-0001", design_id := "D-0001", design_date := "2026-01-05"
  , status := "Approved", bom_reference := "" }

/-- Witness for C10: with `users0` nobody receives the mail and the
state is unchanged. -/
theorem c10_no_recipients_no_email_witness :
    pm_recipients users0 = [] ∧ send_design_approval_email design1 users0 emptyState = emptyState :=
  (c10_no_recipients_no_email design1 users0 emptyState).2 (by decide)

lemma create_maintenance_schedule_committed (inst : InstallationRecord) (s : DBState) (hp : s.pending = []) :
    (create_maintenance_schedule inst s).committed
      = s.committed ++ (schedule_intervals.map fun months =>
          Doc.jobCard (mkJobCard inst (add_months inst.installation_date months) "Scheduled Maintenance" false)) ∧
    (create_maintenance_schedule inst s).pending = [] := by
  simp [create_maintenance_schedule, schedule_intervals, create_job_card, msgprint, dbCommit,
    insertDoc, hp]

lemma create_installation_record_run (doc : ProductionOrder) (today : Date) (user instName : String)
    (s : DBState) (h1 : doc.status = "Completed") (h2 : doc.installation_record = "") (hp : s.pending = []) :
    (create_installation_record doc today user instName s).1.committed
      = s.committed ++ [Doc.installationRecord (mkInstallation doc today user instName)]
        ++ (schedule_intervals.map fun months =>
            Doc.jobCard (mkJobCard (mkInstallation doc today user instName) (add_months today months) "Scheduled Maintenance" false)) ∧
    (create_installation_record doc today user instName s).2 = { doc with installation_record := instName } := by
  constructor
  · have := create_maintenance_schedule_committed (mkInstallation doc today user instName)
      (msgprint ("Installation Record " ++ instName ++ " created for Production Order " ++ doc.name)
        (dbCommit (insertDoc (Doc.installationRecord (mkInstallation doc today user instName)) s)))
      (by simp [msgprint, dbCommit, insertDoc])
    simp [create_installation_record, h1, h2] at this ⊢
    rw [this.1]
    simp [msgprint, dbCommit, insertDoc, hp, mkInstallation]
  · simp [create_installation_record, h1, h2]

lemma create_installation_record_skip (doc : ProductionOrder) (today : Date) (user instName : String)
    (s : DBState) (h : ¬ (doc.status = "Completed" ∧ doc.installation_record = "")) :
    create_installation_record doc today user instName s = (s, doc) := by
  simp [create_installation_record, h]

/-- C1: on a `Completed` Production Order with no linked installation
record, the hook creates an Installation Record and exactly four Job
Cards — one per entry of `schedule_intervals = [3, 6, 9, 12]` — each
scheduled at the installation date plus that many months and of type
`Scheduled Maintenance`. -/
theorem c1_quarterly_job_cards (doc : ProductionOrder) (today : Date) (user instName : String)
    (s : DBState) (h1 : doc.status = "Completed") (h2 : doc.installation_record = "")
    (hp : s.pending = []) :
    jobCards (create_installation_record doc today user instName s).1
      = jobCards s ++ (schedule_intervals.map fun months =>
          mkJobCard (mkInstallation doc today user instName)
            (add_months (mkInstallation doc today user instName).installation_date months)
            "Scheduled Maintenance" false) ∧
    schedule_intervals = [3, 6, 9, 12] ∧
    (∀ months,
      (mkJobCard (mkInstallation doc today user instName)
        (add_months (mkInstallation doc today user instName).installation_date months)
        "Scheduled Maintenance" false).scheduled_date
          = add_months (mkInstallation doc today user instName).installation_date months ∧
      (mkJobCard (mkInstallation doc today user instName)
        (add_months (mkInstallation doc today user instName).installation_date months)
        "Scheduled Maintenance" false).maintenance_type = "Scheduled Maintenance") := by
  refine ⟨?_, rfl, fun months => ⟨rfl, rfl⟩⟩
  have h := (create_installation_record_run doc today user instName s h1 h2 hp).1
  simp only [jobCards, h, List.filterMap_append, List.filterMap_map]
  simp [schedule_intervals, Function.comp, mkInstallation]

/-- Concrete `Completed` Production Order used by witnesses and
counterexamples. -/
def po0 : ProductionOrder :=
  { name := "PO-0001", production_order_id := "D-0001", wastewater_design := "WSD-0001"
  , status := "Completed", expected_start_date := ⟨2026, 1, 2⟩, production_qty := 1
  , bom_no := "", installation_record := "" }

/-- Witness for C1 at a concrete completed Production Order. -/
theorem c1_quarterly_job_cards_witness :
    jobCards (create_installation_record po0 ⟨2026, 1, 10⟩ "Administrator" "IR-0001" emptyState).1
      = jobCards emptyState ++ (schedule_intervals.map fun months =>
          mkJobCard (mkInstallation po0 ⟨2026, 1, 10⟩ "Administrator" "IR-0001")
            (add_months (mkInstallation po0 ⟨2026, 1, 10⟩ "Administrator" "IR-0001").installation_date months)
            "Scheduled Maintenance" false) ∧
    schedule_intervals = [3, 6, 9, 12] ∧
    (∀ months,
      (mkJobCard (mkInstallation po0 ⟨2026, 1, 10⟩ "Administrator" "IR-0001")
        (add_months (mkInstallation po0 ⟨2026, 1, 10⟩ "Administrator" "IR-0001").installation_date months)
        "Scheduled Maintenance" false).scheduled_date
          = add_months (mkInstallation po0 ⟨2026, 1, 10⟩ "Administrator" "IR-0001").installation_date months ∧
      (mkJobCard (mkInstallation po0 ⟨2026, 1, 10⟩ "Administrator" "IR-0001")
        (add_months (mkInstallation po0 ⟨2026, 1, 10⟩ "Administrator" "IR-0001").installation_date months)
        "Scheduled Maintenance" false).maintenance_type = "Scheduled Maintenance") :=
  c1_quarterly_job_cards po0 ⟨2026, 1, 10⟩ "Administrator" "IR-0001" emptyState rfl rfl rfl

/-- C9: after a successful run, the Production Order carries the link to
the created Installation Record, and a second invocation of the hook on
the updated order returns the store and the order unchanged — it
creates no Installation Record and no Job Cards. -/
theorem c9_idempotent_after_success (po : ProductionOrder) (today today2 : Date)
    (user user2 instName instName2 : String) (s : DBState)
    (h1 : po.status = "Completed") (h2 : po.installation_record = "") (h3 : instName ≠ "") :
    (create_installation_record po today user instName s).2.installation_record = instName ∧
    create_installation_record (create_installation_record po today user instName s).2
        today2 user2 instName2 (create_installation_record po today user instName s).1
      = ((create_installation_record po today user instName s).1,
         (create_installation_record po today user instName s).2) := by
  have hsnd : (create_installation_record po today user instName s).2
      = { po with installation_record := instName } := by
    simp [create_installation_record, h1, h2]
  refine ⟨by rw [hsnd], ?_⟩
  apply create_installation_record_skip
  rw [hsnd]
  rintro ⟨-, hx⟩
  exact h3 hx

/-- Witness for C9 at a concrete completed Production Order. -/
theorem c9_idempotent_after_success_witness :
    (create_installation_record po0 ⟨2026, 1, 10⟩ "Administrator" "IR-0001" emptyState).2.installation_record = "IR-0001" ∧
    create_installation_record (create_installation_record po0 ⟨2026, 1, 10⟩ "Administrator" "IR-0001" emptyState).2
        ⟨2026, 2, 20⟩ "Administrator" "IR-0002" (create_installation_record po0 ⟨2026, 1, 10⟩ "Administrator" "IR-0001" emptyState).1
      = ((create_installation_record po0 ⟨2026, 1, 10⟩ "Administrator" "IR-0001" emptyState).1,
         (create_installation_record po0 ⟨2026, 1, 10⟩ "Administrator" "IR-0001" emptyState).2) :=
  c9_idempotent_after_success po0 ⟨2026, 1, 10⟩ ⟨2026, 2, 20⟩ "Administrator" "Administrator"
    "IR-0001" "IR-0002" emptyState rfl rfl (by decide)

/-- C3 counterexample: it is not the case that every `except` block of
the module re-raises a user-facing error — `generate_maintenance_report`
only logs. -/
theorem c3_uniform_throw_fails :
    ¬ (module_except_blocks.all (fun b => b.throws) = true) := by decide

/-- C3 amended: every function catches any exception and logs it with a
fixed non-empty title, and every function except
`generate_maintenance_report` then raises a generic user-facing error;
`generate_maintenance_report` swallows the exception after logging. -/
theorem c3_error_pattern_amended :
    module_except_blocks.all (fun b =>
      b.log_title != "" &&
      (b.throws == (b.fname != "generate_maintenance_report")) &&
      (b.throws == (b.user_message != ""))) = true := by decide

/-- C4 counterexample: when the first quarterly Job Card insert raises
during `create_installation_record`, the error aborts the transaction,
yet the document store has changed — the Installation Record was
already committed by the explicit `frappe.db.commit()` that preceded
the failure. -/
theorem c4_store_changed_on_error :
    (create_installation_record_failJobCard po0 ⟨2026, 1, 10⟩ "Administrator" "IR-0001" 0 emptyState).1.committed
      ≠ emptyState.committed := by decide

/-- C4 amended: a raised error aborts only the open transaction — after
the failure nothing uncommitted survives (`pending = []`), but every
document made durable by an explicit `frappe.db.commit()` before the
error (the Installation Record and the first `k` Job Cards) persists,
and the three nested except blocks each logged their fixed title. -/
theorem c4_abort_keeps_committed (doc : ProductionOrder) (today : Date) (user instName : String)
    (k : Nat) (s : DBState) (h1 : doc.status = "Completed") (h2 : doc.installation_record = "")
    (hp : s.pending = []) (hk : k ≤ 4) :
    (create_installation_record_failJobCard doc today user instName k s).1.pending = [] ∧
    (create_installation_record_failJobCard doc today user instName k s).1.committed
      = s.committed ++ [Doc.installationRecord (mkInstallation doc today user instName)]
        ++ ((schedule_intervals.take k).map fun months =>
            Doc.jobCard (mkJobCard (mkInstallation doc today user instName)
              (add_months today months) "Scheduled Maintenance" false)) ∧
    (create_installation_record_failJobCard doc today user instName k s).1.errorLog
      = s.errorLog ++ ["Job Card Creation Failed", "Maintenance Schedule Creation Failed",
                       "Installation Record Creation Failed"] := by
  have hcase : k = 0 ∨ k = 1 ∨ k = 2 ∨ k = 3 ∨ k = 4 := by omega
  rcases hcase with rfl | rfl | rfl | rfl | rfl <;>
    simp [create_installation_record_failJobCard, h1, h2, hp, schedule_intervals,
      create_job_card, msgprint, dbCommit, insertDoc, rollback, logError, mkInstallation]

/-- Witness for the amended C4: failure at the second Job Card leaves
the Installation Record and the first Job Card committed. -/
theorem c4_abort_keeps_committed_witness :
    (create_installation_record_failJobCard po0 ⟨2026, 1, 10⟩ "Administrator" "IR-0001" 1 emptyState).1.pending = [] ∧
    (create_installation_record_failJobCard po0 ⟨2026, 1, 10⟩ "Administrator" "IR-0001" 1 emptyState).1.committed
      = emptyState.committed ++ [Doc.installationRecord (mkInstallation po0 ⟨2026, 1, 10⟩ "Administrator" "IR-0001")]
        ++ ((schedule_intervals.take 1).map fun months =>
            Doc.jobCard (mkJobCard (mkInstallation po0 ⟨2026, 1, 10⟩ "Administrator" "IR-0001")
              (add_months ⟨2026, 1, 10⟩ months) "Scheduled Maintenance" false)) ∧
    (create_installation_record_failJobCard po0 ⟨2026, 1, 10⟩ "Administrator" "IR-0001" 1 emptyState).1.errorLog
      = emptyState.errorLog ++ ["Job Card Creation Failed", "Maintenance Schedule Creation Failed",
                                "Installation Record Creation Failed"] :=
  c4_abort_keeps_committed po0 ⟨2026, 1, 10⟩ "Administrator" "IR-0001" 1 emptyState rfl rfl rfl
    (by decide)

/-- Concrete submitted Maintenance Log used for C5. -/
def ml0 : MaintenanceLog :=
  { maintenance_id := "", installation_record := "", equipment := "Pump A"
  , maintenance_date := ⟨2026, 2, 1⟩, performed_by := "", activity := "", remarks := "" }

/-- C5 counterexample: submitting a Maintenance Log is not a no-op —
the registered hook inserts and commits a new Maintenance Log document,
so stored state changes. -/
theorem c5_hook_not_noop :
    maintenanceLogs (log_maintenance_activity ml0 ⟨2026, 2, 2⟩ "Administrator" "a1b2c3" emptyState)
      ≠ maintenanceLogs emptyState := by decide

/-- C5 amended: the hook registered for Maintenance Log submission
creates and commits exactly one new Maintenance Log document derived
from the submitted one (absent fields defaulted) and then emits a
confirmation message. -/
theorem c5_hook_creates_log (doc : MaintenanceLog) (today : Date) (user genHash : String)
    (s : DBState) (hp : s.pending = []) :
    (log_maintenance_activity doc today user genHash s).committed
      = s.committed ++ [Doc.maintenanceLog (mkMaintenanceLog doc today user genHash)] ∧
    (log_maintenance_activity doc today user genHash s).trace
      = s.trace ++ [Event.docCreated (Doc.maintenanceLog (mkMaintenanceLog doc today user genHash)),
                    Event.msg "Maintenance Log created."] := by
  simp [log_maintenance_activity, msgprint, dbCommit, insertDoc, hp]

/-- Witness for the amended C5 at a concrete submitted log. -/
theorem c5_hook_creates_log_witness :
    (log_maintenance_activity ml0 ⟨2026, 2, 2⟩ "Administrator" "a1b2c3" emptyState).committed
      = emptyState.committed ++ [Doc.maintenanceLog (mkMaintenanceLog ml0 ⟨2026, 2, 2⟩ "Administrator" "a1b2c3")] ∧
    (log_maintenance_activity ml0 ⟨2026, 2, 2⟩ "Administrator" "a1b2c3" emptyState).trace
      = emptyState.trace ++ [Event.docCreated (Doc.maintenanceLog (mkMaintenanceLog ml0 ⟨2026, 2, 2⟩ "Administrator" "a1b2c3")),
                             Event.msg "Maintenance Log created."] :=
  c5_hook_creates_log ml0 ⟨2026, 2, 2⟩ "Administrator" "a1b2c3" emptyState rfl

/-- C6 counterexample: running the Installation Record submit hook
twice on the same `Installed` record creates a duplicate Warranty
Record — the status guard alone does not give at-most-once creation. -/
theorem c6_double_submit_duplicates :
    warranties (create_warranty_record ir0 (create_warranty_record ir0 emptyState))
      = [mkWarranty ir0, mkWarranty ir0] := by decide

/-- The committed `File` documents of a store. -/
def files (s : DBState) : List FileDoc :=
  s.committed.filterMap (fun d => match d with | Doc.file f => some f | _ => none)

/-- C6 amended: only `create_installation_record` creates at most once
per triggering document, thanks to its existing-link guard — its second
invocation changes nothing; every other record-creating operation —
`create_warranty_record` and `create_production_order`, guarded only by
a status check, and the unguarded `attach_design_pdf` and
`log_maintenance_activity` — creates a fresh downstream record on every
invocation on an eligible document, so a repeated hook run duplicates
the downstream record. -/
theorem c6_guards_amended (po : ProductionOrder) (today today2 : Date)
    (user user2 instName instName2 : String) (s : DBState)
    (ir : InstallationRecord) (s2 : DBState)
    (d : Design) (today3 : Date) (poName1 poName2 : String) (s3 : DBState)
    (d2 : Design) (s4 : DBState)
    (ml : MaintenanceLog) (today4 : Date) (mlUser hash1 hash2 : String) (s5 : DBState)
    (h1 : po.status = "Completed") (h2 : po.installation_record = "") (h3 : instName ≠ "")
    (hi : ir.status = "Installed") (hp2 : s2.pending = [])
    (hd : d.status = "Approved") (hp3 : s3.pending = [])
    (hp4 : s4.pending = []) (hp5 : s5.pending = []) :
    (create_installation_record (create_installation_record po today user instName s).2
        today2 user2 instName2 (create_installation_record po today user instName s).1
      = ((create_installation_record po today user instName s).1,
         (create_installation_record po today user instName s).2)) ∧
    warranties (create_warranty_record ir (create_warranty_record ir s2))
      = warranties s2 ++ [mkWarranty ir, mkWarranty ir] ∧
    productionOrders (create_production_order d today3 poName2 (create_production_order d today3 poName1 s3))
      = productionOrders s3 ++ [mkProductionOrder d today3 poName1, mkProductionOrder d today3 poName2] ∧
    files (attach_design_pdf d2 (attach_design_pdf d2 s4))
      = files s4 ++ [mkDesignPdf d2, mkDesignPdf d2] ∧
    maintenanceLogs (log_maintenance_activity ml today4 mlUser hash2 (log_maintenance_activity ml today4 mlUser hash1 s5))
      = maintenanceLogs s5 ++ [mkMaintenanceLog ml today4 mlUser hash1, mkMaintenanceLog ml today4 mlUser hash2] := by
  refine ⟨?_, ?_, ?_, ?_, ?_⟩
  · have hsnd : (create_installation_record po today user instName s).2
        = { po with installation_record := instName } := by
      simp [create_installation_record, h1, h2]
    apply create_installation_record_skip
    rw [hsnd]
    rintro ⟨-, hx⟩
    exact h3 hx
  · have hA := create_warranty_record_committed ir s2 hi
    have hB := create_warranty_record_committed ir (create_warranty_record ir s2) hi
    simp [warranties, hB.1, hA.1, hA.2, hp2, List.filterMap_append]
  · simp [create_production_order, hd, msgprint, dbCommit, insertDoc, productionOrders, hp3,
      List.filterMap_append]
  · simp [attach_design_pdf, dbCommit, insertDoc, files, hp4, List.filterMap_append]
  · simp [log_maintenance_activity, msgprint, dbCommit, insertDoc, maintenanceLogs, hp5,
      List.filterMap_append]

/-- Witness for the amended C6 at concrete documents. -/
theorem c6_guards_amended_witness :
    (create_installation_record (create_installation_record po0 ⟨2026, 1, 10⟩ "Administrator" "IR-0001" emptyState).2
        ⟨2026, 2, 20⟩ "Administrator" "IR-0002" (create_installation_record po0 ⟨2026, 1, 10⟩ "Administrator" "IR-0001" emptyState).1
      = ((create_installation_record po0 ⟨2026, 1, 10⟩ "Administrator" "IR-0001" emptyState).1,
         (create_installation_record po0 ⟨2026, 1, 10⟩ "Administrator" "IR-0001" emptyState).2)) ∧
    warranties (create_warranty_record ir0 (create_warranty_record ir0 emptyState))
      = warranties emptyState ++ [mkWarranty ir0, mkWarranty ir0] ∧
    productionOrders (create_production_order design1 ⟨2026, 1, 6⟩ "PO-0002" (create_production_order design1 ⟨2026, 1, 6⟩ "PO-0001" emptyState))
      = productionOrders emptyState ++ [mkProductionOrder design1 ⟨2026, 1, 6⟩ "PO-0001", mkProductionOrder design1 ⟨2026, 1, 6⟩ "PO-0002"] ∧
    files (attach_design_pdf design1 (attach_design_pdf design1 emptyState))
      = files emptyState ++ [mkDesignPdf design1, mkDesignPdf design1] ∧
    maintenanceLogs (log_maintenance_activity ml0 ⟨2026, 2, 2⟩ "Administrator" "h2x" (log_maintenance_activity ml0 ⟨2026, 2, 2⟩ "Administrator" "h1x" emptyState))
      = maintenanceLogs emptyState ++ [mkMaintenanceLog ml0 ⟨2026, 2, 2⟩ "Administrator" "h1x", mkMaintenanceLog ml0 ⟨2026, 2, 2⟩ "Administrator" "h2x"] :=
  c6_guards_amended po0 ⟨2026, 1, 10⟩ ⟨2026, 2, 20⟩ "Administrator" "Administrator"
    "IR-0001" "IR-0002" emptyState ir0 emptyState design1 ⟨2026, 1, 6⟩ "PO-0001" "PO-0002"
    emptyState design1 emptyState ml0 ⟨2026, 2, 2⟩ "Administrator" "h1x" "h2x" emptyState
    rfl rfl (by decide) rfl rfl rfl rfl rfl rfl

/-- Concrete non-approved (Draft) design used for C7. -/
def design0 : Design :=
  { name := "WSD-0002", design_id := "D-0002", design_date := "2026-01-05"
  , status := "Draft", bom_reference := "" }

/-- C7 counterexample: submitting a Draft design triggers the three
handlers, but no Production Order is created and no email is sent —
only the PDF attachment happens, refuting "three actions occur" for
every submitted design. -/
theorem c7_draft_design_no_order :
    productionOrders (on_submit_design design0 [] ⟨2026, 1, 6⟩ "PO-0002" emptyState) = [] ∧
    (on_submit_design design0 [] ⟨2026, 1, 6⟩ "PO-0002" emptyState).trace
      = [Event.docCreated (Doc.file (mkDesignPdf design0))] := by decide

/-- C7 amended: the three handlers run in their `hooks.py` order; when
the submitted design is `Approved` and at least one Production Manager
has a truthy email, the Production Order creation, the approval email
and the PDF attachment occur in exactly that order, and the store gains
the Production Order and the attached File. -/
theorem c7_submit_pipeline_amended (doc : Design) (users : List UserRec) (today : Date)
    (poName : String) (s : DBState) (hp : s.pending = [])
    (h1 : doc.status = "Approved") (h2 : pm_recipients users ≠ []) :
    (on_submit_design doc users today poName s).trace
      = s.trace ++ [ Event.docCreated (Doc.productionOrder (mkProductionOrder doc today poName))
                   , Event.msg ("Production Order " ++ poName ++ " created for Design " ++ doc.design_id)
                   , Event.emailSent (pm_recipients users) ("Design Approved: " ++ doc.design_id)
                   , Event.docCreated (Doc.file (mkDesignPdf doc)) ] ∧
    (on_submit_design doc users today poName s).committed
      = s.committed ++ [Doc.productionOrder (mkProductionOrder doc today poName), Doc.file (mkDesignPdf doc)] := by
  have hne : (pm_recipients users).isEmpty = false := by
    cases hrec : pm_recipients users with
    | nil => exact absurd hrec h2
    | cons a l => rfl
  constructor <;>
    simp [on_submit_design, create_production_order, h1, send_design_approval_email, hne,
      attach_design_pdf, sendmail, msgprint, dbCommit, insertDoc, hp]

/-- Concrete user table with one Production Manager holding a truthy
email, used for the C7 witness. -/
def users1 : List UserRec :=
  [ ⟨"pm1@site", "pm1@example.com", ["Production Manager"]⟩ ]

/-- Witness for the amended C7 at a concrete approved design. -/
theorem c7_submit_pipeline_amended_witness :
    (on_submit_design design1 users1 ⟨2026, 1, 6⟩ "PO-0001" emptyState).trace
      = emptyState.trace ++ [ Event.docCreated (Doc.productionOrder (mkProductionOrder design1 ⟨2026, 1, 6⟩ "PO-0001"))
                            , Event.msg ("Production Order " ++ "PO-0001" ++ " created for Design " ++ design1.design_id)
                            , Event.emailSent (pm_recipients users1) ("Design Approved: " ++ design1.design_id)
                            , Event.docCreated (Doc.file (mkDesignPdf design1)) ] ∧
    (on_submit_design design1 users1 ⟨2026, 1, 6⟩ "PO-0001" emptyState).committed
      = emptyState.committed ++ [Doc.productionOrder (mkProductionOrder design1 ⟨2026, 1, 6⟩ "PO-0001"),
                                 Doc.file (mkDesignPdf design1)] :=
  c7_submit_pipeline_amended design1 users1 ⟨2026, 1, 6⟩ "PO-0001" emptyState rfl rfl (by decide)
